import Mathlib

/-!
Verification of the agent decision loop and verdict engine of the Fara E2E
test suite (`src/agent.py`).  The Python source is shallowly embedded:

* Python strings are Lean `String`s; `in`, `.lower()`, `.strip()`,
  `.rstrip("/")` and the handful of regexes the agent uses are modelled by
  executable character-list scanners below.
* Python dicts used as counters are association lists (`List (κ × Nat)`).
* Python floats occur only as coordinates and JSON numbers; they are
  modelled exactly as integer fractions (`PyNum`), with Python's banker's
  rounding (`round`) and `int` truncation made explicit.
* Browser, model and filesystem effects are inputs supplied per round by an
  environment script; the agent's reaction to them is computed by the
  embedded step function `runRound`.
-/

/-- ASCII whitespace, the characters Python's `str.strip` / `\s` treat as
space for the text the agent handles. -/
def isPySpace (c : Char) : Bool :=
  c == ' ' || c == '\t' || c == '\n' || c == '\r' || c == '\x0b' || c == '\x0c'

/-- Python `str.strip()`. -/
def pyStrip (s : String) : String :=
  String.mk (((s.toList.dropWhile isPySpace).reverse.dropWhile isPySpace).reverse)

/-- Python `str.lower()` (ASCII, which is all the agent's fixed terms use). -/
def pyLower (s : String) : String :=
  String.mk (s.toList.map Char.toLower)

/-- Python `str.rstrip("/")`. -/
def pyRstripSlashes (s : String) : String :=
  String.mk ((s.toList.reverse.dropWhile (· == '/')).reverse)

/-- Contiguous-infix test on character lists (Python `needle in hay`). -/
def listHasInfix (needle : List Char) : List Char → Bool
  | [] => needle.isEmpty
  | c :: t => needle.isPrefixOf (c :: t) || listHasInfix needle t

/-- Python `needle in hay` for strings. -/
def strContains (hay needle : String) : Bool :=
  listHasInfix needle.toList hay.toList

/-- Python `l[-n:]`. -/
def takeLast {α : Type} (n : Nat) (l : List α) : List α :=
  l.drop (l.length - n)

/-- Set-style insertion, modelling Python `set.add` on `_visited_url_norms`. -/
def insertOnce (l : List String) (x : String) : List String :=
  if x ∈ l then l else l ++ [x]

/-- Dict lookup with default 0 (Python `d.get(k, 0)`). -/
def alGet {α : Type} [DecidableEq α] : List (α × Nat) → α → Nat
  | [], _ => 0
  | (k', v) :: t, k => if k' = k then v else alGet t k

/-- Dict increment (Python `d[k] = d.get(k, 0) + 1`). -/
def alBump {α : Type} [DecidableEq α] : List (α × Nat) → α → List (α × Nat)
  | [], k => [(k, 1)]
  | (k', v) :: t, k => if k' = k then (k', v + 1) :: t else (k', v) :: alBump t k

/-- Python `max(d.values(), default=0)`. -/
def maxVals {α : Type} (m : List (α × Nat)) : Nat :=
  m.foldr (fun p acc => max p.2 acc) 0

/-- Exact model of the Python numbers (JSON ints/floats, coordinate math)
flowing through the agent: a fraction of integers with positive denominator.
Only multiplication, division, ordering against 0, rounding and truncation
are ever applied to them in `agent.py`, so no normalization is needed. -/
structure PyNum where
  num : ℤ
  den : ℤ := 1
deriving DecidableEq

/-- Embed an integer. -/
def PyNum.ofInt (n : ℤ) : PyNum := ⟨n, 1⟩

instance (n : Nat) : OfNat PyNum n := ⟨⟨n, 1⟩⟩

/-- Multiplication of Python numbers. -/
def PyNum.mul (a b : PyNum) : PyNum := ⟨a.num * b.num, a.den * b.den⟩

/-- Division of Python numbers (the divisor is nonzero in every use). -/
def PyNum.div (a b : PyNum) : PyNum :=
  if b.num < 0 then ⟨-(a.num * b.den), a.den * (-b.num)⟩
  else ⟨a.num * b.den, a.den * b.num⟩

/-- Python `x > 0`. -/
def PyNum.isPos (a : PyNum) : Bool := decide (0 < a.num)

/-- Python `x == 0`. -/
def PyNum.isZero (a : PyNum) : Bool := decide (a.num = 0)

/-- Python `round`: round-half-to-even. -/
def pyRound (a : PyNum) : ℤ :=
  let f := Int.fdiv a.num a.den
  let r := a.num - f * a.den
  if 2 * r < a.den then f
  else if a.den < 2 * r then f + 1
  else if f % 2 = 0 then f else f + 1

/-- Python `int()`: truncation toward zero (denominator positive). -/
def pyTrunc (a : PyNum) : ℤ :=
  if 0 ≤ a.num then Int.ofNat (a.num.toNat / a.den.toNat)
  else -Int.ofNat ((-a.num).toNat / a.den.toNat)

/-- Python `f"{x:.1f}"` (display only). -/
def fmt1 (q : PyNum) : String :=
  let n : ℤ := pyRound (PyNum.mul q ⟨10, 1⟩)
  let sign := if n < 0 ∨ (n = 0 ∧ q.num < 0) then "-" else ""
  let a := n.natAbs
  s!"{sign}{a / 10}.{a % 10}"

/-- Rendering of a Python number in result text (display only; integral
values print like Python ints, the only case the agent's tasks produce). -/
def fmtQ (q : PyNum) : String :=
  if q.num % q.den == 0 then s!"{q.num / q.den}" else s!"{q.num}/{q.den}"

/-- Python `s.split(sep)[0]` for a non-empty separator (char-list core). -/
def beforeFirstAux (sep : List Char) : List Char → List Char
  | [] => []
  | c :: t => if sep.isPrefixOf (c :: t) then [] else c :: beforeFirstAux sep t

/-- Python `s.split(sep)[0]` for a non-empty separator. -/
def beforeFirst (sep s : String) : String :=
  String.mk (beforeFirstAux sep.toList s.toList)

/-! ### The regexes of `agent.py`, as leftmost-match scanners -/

/-- Leftmost match of `"([^"]+)"` (or with `q` as the quote character):
the earliest quote that is followed by at least one non-quote character and a
closing quote; returns the quoted body. -/
def firstQuotedFrom (q : Char) : List Char → Option String
  | [] => none
  | c :: rest =>
    if c == q then
      let body := rest.takeWhile (fun d => d != q)
      if !body.isEmpty && !(rest.drop body.length).isEmpty then some (String.mk body)
      else firstQuotedFrom q rest
    else firstQuotedFrom q rest

/-- `FaraAgent._extract_expected_text`: first double-quoted, else first
single-quoted substring, stripped. -/
def extract_expected_text (criteria : String) : Option String :=
  match firstQuotedFrom '"' criteria.toList with
  | some s => some (pyStrip s)
  | none =>
    match firstQuotedFrom '\'' criteria.toList with
    | some s => some (pyStrip s)
    | none => none

/-- Python truthiness (`if expected:`) applied to an extracted expectation. -/
def truthyExtract (s : String) : Option String :=
  match extract_expected_text s with
  | some e => if e == "" then none else some e
  | none => none

/-- After a matched `https?://` scheme of `plen` characters, the maximal
`\S+` tail; `none` when it is empty (the regex requires at least one). -/
def urlBodyAt (plen : Nat) (cs : List Char) : Option String :=
  let body := (cs.drop plen).takeWhile (fun c => !isPySpace c)
  if body.isEmpty then none else some (String.mk (cs.take plen ++ body))

/-- Match of `https?://\S+` anchored at the head of `cs` (case sensitive,
as in `_parse_url_in_text` / `_url_in_text`). -/
def urlAt (cs : List Char) : Option String :=
  if "https://".toList.isPrefixOf cs then urlBodyAt 8 cs
  else if "http://".toList.isPrefixOf cs then urlBodyAt 7 cs
  else none

/-- Leftmost match of `https?://\S+` (the regex in `_url_in_text`,
`_parse_url_in_text` and `_scoped_step_url`'s group). -/
def findUrl : List Char → Option String
  | [] => none
  | c :: rest =>
    match urlAt (c :: rest) with
    | some u => some u
    | none => findUrl rest

/-- Modelled from the spec: `agent.py` imports `get_trimmed_url` from a
`utils` module that is not part of the source snapshot.  The spec only says
URLs are kept "normalized-for-comparison", and the call site passes a
300-character limit, so trimming is modelled as truncation to `max_len`
characters. -/
def get_trimmed_url (url : String) (max_len : Nat) : String :=
  String.mk (url.toList.take max_len)

/-- `FaraAgent._normalize_for_compare`. -/
def normalize_for_compare (url : String) : String :=
  pyLower (get_trimmed_url url 300)

/-- `FaraAgent._parse_url_in_text`: first `https?://\S+` match, normalized. -/
def parse_url_in_text (text : String) : Option String :=
  (findUrl text.toList).map normalize_for_compare

/-- Python `\w` (ASCII): letters, digits, underscore. -/
def isWordChar (c : Char) : Bool := c.isAlphanum || c == '_'

/-- Case-insensitive `https?://\S+` anchored at the head (the
`_scoped_step_url` regex carries `re.IGNORECASE`). -/
def urlAtCI (cs : List Char) : Option String :=
  if ((cs.take 8).map Char.toLower) == "https://".toList then urlBodyAt 8 cs
  else if ((cs.take 7).map Char.toLower) == "http://".toList then urlBodyAt 7 cs
  else none

/-- Keyword alternatives of `_scoped_step_url`'s
`\b(?:on|open|visit|at|navigate to)\s+(https?://\S+)`, in regex order. -/
def scopedKeywords : List (List Char) :=
  ["on".toList, "open".toList, "visit".toList, "at".toList, "navigate to".toList]

/-- Try each keyword alternative at this position: a case-insensitive keyword
match, at least one whitespace character, then a URL; alternatives are tried
in order with backtracking, as the regex engine does. -/
def scopedUrlAtKw : List (List Char) → List Char → Option String
  | [], _ => none
  | kw :: kws, cs =>
    let here : Option String :=
      if ((cs.take kw.length).map Char.toLower) == kw then
        let r := cs.drop kw.length
        let ws := r.takeWhile isPySpace
        if ws.isEmpty then none else urlAtCI (r.drop ws.length)
      else none
    match here with
    | some u => some u
    | none => scopedUrlAtKw kws cs

/-- Leftmost-position scan for the `_scoped_step_url` pattern; `prev` is the
preceding character, used for the `\b` word boundary. -/
def scopedUrlScan : Option Char → List Char → Option String
  | _, [] => none
  | prev, c :: rest =>
    let boundary := match prev with
      | none => true
      | some p => !isWordChar p
    if boundary then
      match scopedUrlAtKw scopedKeywords (c :: rest) with
      | some u => some u
      | none => scopedUrlScan (some c) rest
    else scopedUrlScan (some c) rest

/-- `FaraAgent._scoped_step_url`: the URL a step explicitly presents as the
page under test, normalized. -/
def scoped_step_url (step : String) : Option String :=
  (scopedUrlScan none step.toList).map normalize_for_compare

/-- `_is_verify_step` inside `_extract_scoped_expectations_for_url`. -/
def is_verify_step (s : String) : Bool :=
  let sl := pyLower s
  ["verify", "assert", "confirm", "check", "ensure", "validate", "expect"].any
    (fun t => strContains sl t)

/-- `_looks_like_page_content_assertion` inside
`_extract_scoped_expectations_for_url`. -/
def looks_like_page_content_assertion (s : String) : Bool :=
  let sl := pyLower s
  if ["browser is at", "url is", "address is"].any (fun t => strContains sl t) then false
  else ["contains", "shows", "visible", "text", "label", "heading"].any
    (fun t => strContains sl t)

/-! ### Data model (`test_types.TestCase` restricted to the fields the
agent loop reads, plus the agent's run-scoped mutable state) -/

/-- `test_types.TestCase`, restricted to the fields `run_test_case` and the
verdict heuristics read (credentials/notes/tags only feed prompt text). -/
structure TestCase where
  id : String := ""
  objective : String := ""
  objective_steps : List String := []
  pass_criteria : List String := []
  fail_criteria : List String := []
  start_url : Option String := none
  max_rounds : Option Nat := none
deriving DecidableEq

/-- One entry of `FaraAgent._transitions` (`from`/`to` are normalized URLs;
`action`/`clicked_text` come from the executed action's arguments). -/
structure Transition where
  src : String
  toUrl : String
  action : Option String
  clicked_text : Option String
deriving DecidableEq

/-- The dynamic action-arguments dict the model returns, restricted to the
keys `run_test_case`/`_execute_action` read.  A missing key is `none`. -/
structure ActionArgs where
  action : Option String := none
  coordinate : Option (PyNum × PyNum) := none
  url : Option String := none
  text : Option String := none
  press_enter : Bool := false
  delete_existing_text : Bool := false
  pixels : Option PyNum := none
  keys : List String := []
  time : Option PyNum := none
  duration : Option PyNum := none
  status : Option String := none
  reason : Option String := none
  message : Option String := none
  label : Option String := none
  query : Option String := none
deriving DecidableEq

/-- `test_types.ActionTrace`, restricted to the fields the loop computes
from modelled data (screenshot paths, timestamps, durations and element
payloads are clock/filesystem artifacts). -/
structure ActionTrace where
  round_index : Nat
  action : String
  model_response : String
  result : String
  page_url : String
  console_errors : Option (List String) := none
deriving DecidableEq

/-- The run-scoped mutable state of `FaraAgent.run_test_case`: the agent's
`self._*` counters plus the loop-local variables (`actions`, `success`,
`fail_reason`, `action_history`, the last observed title/text).
`scroll_history`, `message_history` and screenshot data are I/O payloads the
verdicts never read and are omitted. -/
structure RunState where
  click_counts : List ((ℤ × ℤ) × Nat) := []
  type_counts : List ((ℤ × ℤ) × Nat) := []
  visit_counts : List (String × Nat) := []
  last_action_signature : Option String := none
  repeat_action_streak : Nat := 0
  last_page_text : String := ""
  last_url_norm : Option String := none
  verified_expectations : List (String × String) := []
  transitions : List Transition := []
  page_changed_since_last_action : Bool := false
  page_changed : Bool := false
  just_submitted : Bool := false
  facts : List String := []
  reasoning_history : List String := []
  console_errors : List String := []
  visited_url_norms : List String := []
  last_im_size : Option (PyNum × PyNum) := none
  viewport_width : PyNum := ⟨1440, 1⟩
  viewport_height : PyNum := ⟨900, 1⟩
  browser_url : String := ""
  page_title : String := ""
  page_text : String := ""
  actions : List ActionTrace := []
  action_history : List String := []
  success : Bool := false
  fail_reason : String := "Max rounds reached."
deriving DecidableEq

/-- `test_types.TestRunResult`, restricted to the modelled fields. -/
structure TestRunResult where
  success : Bool
  reason : String
  actions : List ActionTrace
  facts : List String
  final_url : String
  console_errors : List String
deriving DecidableEq

/-! ### Expectation extractor (`_extract_scoped_expectations_for_url`,
`_extract_click_target_texts`) -/

/-- The list `out` built by `_extract_scoped_expectations_for_url` before
de-duplication: expectations from objective steps whose scoped URL matches,
then expectations from pass criteria embedding the same URL. -/
def scoped_expectations_raw (tc : TestCase) (url : String) : List String :=
  let url_norm := normalize_for_compare url
  (tc.objective_steps.filterMap (fun step =>
    match scoped_step_url step with
    | some su =>
      if su == url_norm && is_verify_step step && looks_like_page_content_assertion step then
        truthyExtract step
      else none
    | none => none))
  ++ (tc.pass_criteria.filterMap (fun crit =>
    match parse_url_in_text crit with
    | some cu => if cu == url_norm then truthyExtract crit else none
    | none => none))

/-- The `seen`-set/`uniq`-list de-duplication at the end of
`_extract_scoped_expectations_for_url`: keep first occurrences, in order. -/
def dedupFirstAux (seen : List String) : List String → List String
  | [] => []
  | x :: xs => if x ∈ seen then dedupFirstAux seen xs else x :: dedupFirstAux (x :: seen) xs

/-- `FaraAgent._extract_scoped_expectations_for_url`. -/
def extract_scoped_expectations_for_url (tc : TestCase) (url : String) : List String :=
  dedupFirstAux [] (scoped_expectations_raw tc url)

/-- `FaraAgent._extract_click_target_texts`. -/
def extract_click_target_texts (tc : TestCase) : List String :=
  tc.objective_steps.filterMap (fun step =>
    if strContains (pyLower step) "click" then truthyExtract step else none)

/-! ### Verdict heuristics -/

/-- The `required_pairs` accumulated by `_check_auto_pass`: criteria that
embed both a URL and a (truthy) quoted expectation. -/
def required_pairs_of (criteria : List String) : List (String × String) :=
  criteria.filterMap (fun crit =>
    match parse_url_in_text crit, extract_expected_text crit with
    | some u, some e => if e == "" then none else some (u, e)
    | _, _ => none)

/-- The `final_url_norm` accumulated by `_check_auto_pass`: the last
criterion embedding a URL, no quoted expectation at all, and one of the
final-URL phrases. -/
def final_url_norm_of (criteria : List String) : Option String :=
  criteria.foldl (fun acc crit =>
    match parse_url_in_text crit with
    | some u =>
      if (extract_expected_text crit).isNone
          && (["browser is at", "is at", "returns to", "at "].any
            (fun p => strContains (pyLower crit) p)) then
        some u
      else acc
    | none => acc) none

/-- The reversed-transition scan of `_check_auto_pass` looking for a
left-click transition to the final URL whose clicked text matches a click
target; returns the matching clicked text. -/
def firstClickTextMatch (fu : String) (click_targets : List String) :
    List Transition → Option String
  | [] => none
  | tr :: rest =>
    if tr.toUrl == fu && tr.action == some "left_click" then
      let clicked := pyLower (pyStrip (tr.clicked_text.getD ""))
      if clicked != "" && click_targets.contains clicked then some clicked
      else firstClickTextMatch fu click_targets rest
    else firstClickTextMatch fu click_targets rest

/-- `FaraAgent._check_auto_pass`. -/
def check_auto_pass (tc : TestCase) (st : RunState) (current_url : String) :
    Bool × Option String :=
  let pass_criteria := tc.pass_criteria
  if pass_criteria.isEmpty then (false, none)
  else
    let required_pairs := required_pairs_of pass_criteria
    let final_url_norm := final_url_norm_of pass_criteria
    let pairsOk : Bool := required_pairs.all (fun p =>
      st.verified_expectations.any (fun v => normalize_for_compare v.1 == p.1 && v.2 == p.2)
      || (normalize_for_compare current_url == p.1
          && strContains (pyLower st.last_page_text) (pyLower p.2)))
    if !pairsOk then (false, none)
    else
      match final_url_norm with
      | none => (false, none)
      | some fu =>
        if normalize_for_compare current_url != fu then (false, none)
        else
          let click_targets := (extract_click_target_texts tc).map pyLower
          if click_targets.isEmpty then (false, none)
          else
            match firstClickTextMatch fu click_targets st.transitions.reverse with
            | some clicked =>
              (true, some s!"All URL-scoped pass criteria satisfied and clicked '{clicked}' navigated to final URL.")
            | none =>
              if (st.transitions.reverse.take 2).any
                  (fun tr => tr.toUrl == fu && tr.action == some "left_click") then
                (true, some "All URL-scoped pass criteria satisfied and a recent click navigated to the final URL.")
              else (false, none)

/-- The fixed error-term set of `_check_auto_verdict`. -/
def error_terms : List String :=
  ["404", "not-found", "not found", "error", "fail", "oops", "uh-oh"]

/-- `FaraAgent._check_auto_verdict` (the error-page heuristic). -/
def check_auto_verdict (tc : TestCase) (current_url page_title page_text : String) :
    Option Bool × Option String :=
  let url_lower := pyLower current_url
  let title_lower := pyLower page_title
  let text_lower := pyLower page_text
  let fail_blob := pyLower (String.intercalate " " tc.fail_criteria)
  let start_url := pyRstripSlashes (tc.start_url.getD "")
  if error_terms.any (fun t => strContains url_lower t)
      || error_terms.any (fun t => strContains title_lower t) then
    (some false, some "Landed on an error/404 page.")
  else if strContains text_lower "404" || strContains text_lower "not found" then
    (some false, some "Page body shows 404/not found.")
  else if strContains fail_blob "login" && strContains url_lower "login"
      && start_url != "" && url_lower == pyLower start_url then
    (some false, some "Still on login page; fail criteria mention login.")
  else (none, none)

/-- `FaraAgent._check_text_expectations` (scoped-text-missing fast fail). -/
def check_text_expectations (tc : TestCase) (current_url page_text : String)
    (page_changed : Bool) : Option Bool × Option String :=
  if !page_changed then (none, none)
  else
    let expectations := extract_scoped_expectations_for_url tc current_url
    if expectations.isEmpty then (none, none)
    else
      let text_lower := pyLower page_text
      match expectations.filter (fun e => !strContains text_lower (pyLower e)) with
      | [] => (none, none)
      | m :: _ => (some false, some s!"Expected text '{m}' missing after navigation.")

/-! ### Repeat/loop detector and coordinate mapper -/

/-- `FaraAgent._convert_resized_coords_to_viewport`: identity when no prompt
image size is known, per-axis linear rescale otherwise. -/
def convert_resized_coords_to_viewport (st : RunState) (c : PyNum × PyNum) :
    PyNum × PyNum :=
  match st.last_im_size with
  | none => c
  | some im =>
    (PyNum.mul c.1 (PyNum.div st.viewport_width im.1),
     PyNum.mul c.2 (PyNum.div st.viewport_height im.2))

/-- `FaraAgent._bucket_coord`: snap to a 20-pixel grid. -/
def bucket_coord (c : PyNum × PyNum) : ℤ × ℤ :=
  (pyRound (PyNum.div c.1 ⟨20, 1⟩) * 20, pyRound (PyNum.div c.2 ⟨20, 1⟩) * 20)

/-- `FaraAgent._record_action_coord`. -/
def record_action_coord (st : RunState) (action : String) (coord : PyNum × PyNum) :
    RunState :=
  let bucket := bucket_coord coord
  let st :=
    if action == "left_click" || action == "click" then
      { st with click_counts := alBump st.click_counts bucket }
    else st
  if action == "type" then { st with type_counts := alBump st.type_counts bucket }
  else st

/-- `FaraAgent._record_visit`. -/
def record_visit (st : RunState) (url : String) : RunState :=
  { st with visit_counts := alBump st.visit_counts (normalize_for_compare url) }

/-- Python `f"{x}"` of an optional bucketed coordinate (`None` or a tuple). -/
def fmtOptBucket : Option (ℤ × ℤ) → String
  | none => "None"
  | some b => s!"({b.1}, {b.2})"

/-- Python `f"{x}"` of an optional int (`None` or the number). -/
def fmtOptInt : Option ℤ → String
  | none => "None"
  | some n => s!"{n}"

/-- `FaraAgent._action_signature`; `url_now` is what `browser.get_url()`
returns right after the action executed. -/
def action_signature (st : RunState) (url_now : String) (args : ActionArgs) : String :=
  let action := args.action.getD ""
  let url := normalize_for_compare url_now
  let bucket : Option (ℤ × ℤ) :=
    args.coordinate.map (fun c => bucket_coord (convert_resized_coords_to_viewport st c))
  let pixels : Option ℤ := args.pixels.map pyTrunc
  s!"{action}|{url}|{fmtOptBucket bucket}|{fmtOptInt pixels}"

/-- The streak update of `run_test_case` (lines 1230–1235): identical
signature increments the streak, anything else resets it to 1. -/
def update_streak (st : RunState) (sig : String) : RunState :=
  if st.last_action_signature == some sig then
    { st with repeat_action_streak := st.repeat_action_streak + 1 }
  else
    { st with repeat_action_streak := 1, last_action_signature := some sig }

/-- `FaraAgent._detect_loop_blocker`. -/
def detect_loop_blocker (st : RunState) : Option String :=
  let max_clicks := maxVals st.click_counts
  let max_types := maxVals st.type_counts
  if max_clicks ≥ 4 then
    some "Loop detected: clicked the same region 4+ times without progress."
  else if max_types ≥ 3 then
    some "Loop detected: typed in the same field 3+ times without progress."
  else none

/-- The start-of-round step of `run_test_case` (lines 1047–1051): latch the
page-changed flag and, when set, clear the click/type buckets. -/
def round_start_clear (st : RunState) : RunState :=
  let st := { st with page_changed := st.page_changed_since_last_action }
  if st.page_changed then { st with click_counts := [], type_counts := [] } else st

/-! ### Action envelope allow-list and execution -/

/-- `FaraAgent._allowed_actions`. -/
def allowed_actions : List String :=
  ["key", "type", "mouse_move", "left_click", "scroll", "visit_url",
   "web_search", "history_back", "wait", "terminate"]

/-- `FaraAgent._is_action_allowed` (`none` is the falsy `action_args`). -/
def is_action_allowed : Option ActionArgs → Bool
  | none => false
  | some a => allowed_actions.contains (a.action.getD "")

/-- `FaraAgent._normalize_url_or_search`. -/
def normalize_url_or_search (raw : String) : String :=
  if raw.startsWith "https://" || raw.startsWith "http://"
      || raw.startsWith "file://" || raw.startsWith "about:" then raw
  else if strContains raw " " then s!"https://www.bing.com/search?q={raw}"
  else s!"https://{raw}"

/-- The per-round environment: the prompt image size, the model's reply (and
repair reply) with its parse outcome, and what the browser reports.
`_parse_action` is JSON-envelope plumbing over the raw reply text, so its
outcome (`parsed`) is carried alongside the raw text; an empty-dict parse is
falsy in Python and is represented by `none`. -/
structure ParsedTurn where
  raw : String
  parsed : Option ActionArgs
deriving DecidableEq

instance {ε α : Type} [DecidableEq ε] [DecidableEq α] : DecidableEq (Except ε α) :=
  fun x y =>
  match x, y with
  | .error a, .error b =>
    match decEq a b with
    | isTrue h => isTrue (congrArg Except.error h)
    | isFalse h => isFalse (fun he => h (Except.error.inj he))
  | .ok a, .ok b =>
    match decEq a b with
    | isTrue h => isTrue (congrArg Except.ok h)
    | isFalse h => isFalse (fun he => h (Except.ok.inj he))
  | .error _, .ok _ => isFalse (fun he => Except.noConfusion he)
  | .ok _, .error _ => isFalse (fun he => Except.noConfusion he)

/-- Environment inputs consumed by one round of `run_test_case`:
`model_response`/`repair_response` are the (possibly failing) model calls,
`element_text` is the truthy clicked-element text reported by the browser,
`exec_fails` makes the browser call of the executed action raise,
`url_after_exec` is `browser.get_url()` right after execution, and
`after_*`/`console_msgs` are the post-stabilization observation. -/
structure RoundInput where
  im_size : PyNum × PyNum := (⟨100, 1⟩, ⟨100, 1⟩)
  model_response : Except String ParsedTurn
  repair_response : Except Unit ParsedTurn := Except.error ()
  element_text : Option String := none
  exec_fails : Option String := none
  url_after_exec : String := ""
  after_url : String := ""
  after_title : String := ""
  after_text : String := ""
  console_msgs : List (String × String) := []
deriving DecidableEq

/-- The submit-hinting terms checked against a click's `label` argument. -/
def submit_terms : List String :=
  ["sign up", "sign-in", "signin", "login", "submit", "confirm", "continue"]

/-- The `visit_url` branch of `_execute_action`. -/
def exec_visit_url (st : RunState) (inp : RoundInput) (args : ActionArgs) :
    String × RunState × Option String :=
  match args.url with
  | none => ("No URL provided.", st, none)
  | some u =>
    if u == "" then ("No URL provided.", st, none)
    else
      let target := normalize_url_or_search u
      if normalize_for_compare target == normalize_for_compare st.browser_url then
        ("Already at that URL; no navigation performed.", st, none)
      else
        match inp.exec_fails with
        | some msg => (s!"Action failed: {msg}", st, none)
        | none => (s!"I navigated to '{u}'.", record_visit st target, none)

/-- The `left_click` branch of `_execute_action`. -/
def exec_left_click (st : RunState) (inp : RoundInput) (args : ActionArgs) :
    String × RunState × Option String :=
  let coord := args.coordinate.getD (⟨0, 1⟩, ⟨0, 1⟩)
  let scaled := convert_resized_coords_to_viewport st coord
  let st := record_action_coord st "left_click" scaled
  match inp.exec_fails with
  | some msg => (s!"Action failed: {msg}", st, none)
  | none =>
    let clicked : Option String := inp.element_text.map pyStrip
    let st := match clicked with
      | some t =>
        if t != "" then
          { st with facts := takeLast 10 (st.facts ++
              [if t.length < 80 then s!"Clicked: {t}" else "Clicked: <text>"]) }
        else st
      | none => st
    let label := args.label.getD ""
    let st :=
      if submit_terms.any (fun t => strContains (pyLower label) t) then
        { st with just_submitted := true }
      else st
    let info := match inp.element_text with
      | some t =>
        if t != "" then
          let t50 := String.mk (t.toList.take 50)
          s!" Element: text='{t50}'"
        else ""
      | none => ""
    let x := fmt1 scaled.1
    let y := fmt1 scaled.2
    (s!"I clicked at coordinates ({x}, {y}).{info}", st, clicked)

/-- The `type` branch of `_execute_action`. -/
def exec_type (st : RunState) (inp : RoundInput) (args : ActionArgs) :
    String × RunState × Option String :=
  let text := args.text.getD ""
  match args.coordinate with
  | some coord =>
    let scaled := convert_resized_coords_to_viewport st coord
    let st := record_action_coord st "type" scaled
    (match inp.exec_fails with
     | some msg => (s!"Action failed: {msg}", st, none)
     | none =>
       let st := if args.press_enter then { st with just_submitted := true } else st
       (s!"I typed '{text}'.", st, none))
  | none =>
    match inp.exec_fails with
    | some msg => (s!"Action failed: {msg}", st, none)
    | none =>
      let st := if args.press_enter then { st with just_submitted := true } else st
      (s!"I typed '{text}'.", st, none)

/-- The `mouse_move`/`hover` branch of `_execute_action`. -/
def exec_mouse_move (st : RunState) (inp : RoundInput) (args : ActionArgs) :
    String × RunState × Option String :=
  let coord := args.coordinate.getD (⟨0, 1⟩, ⟨0, 1⟩)
  let scaled := convert_resized_coords_to_viewport st coord
  match inp.exec_fails with
  | some msg => (s!"Action failed: {msg}", st, none)
  | none =>
    let x := fmt1 scaled.1
    let y := fmt1 scaled.2
    (s!"I moved the cursor to ({x}, {y}).", st, none)

/-- The `scroll` branch of `_execute_action`. -/
def exec_scroll (st : RunState) (inp : RoundInput) (args : ActionArgs) :
    String × RunState × Option String :=
  let pixels := args.pixels.getD ⟨0, 1⟩
  let direction := if pixels.isPos then "up" else "down"
  match inp.exec_fails with
  | some msg => (s!"Action failed: {msg}", st, none)
  | none => (s!"I scrolled {direction} one page.", st, none)

/-- The `key`/`keypress` branch of `_execute_action`. -/
def exec_key (st : RunState) (inp : RoundInput) (args : ActionArgs) :
    String × RunState × Option String :=
  let keys := args.keys
  if keys.isEmpty then ("No keys provided.", st, none)
  else
    match inp.exec_fails with
    | some msg => (s!"Action failed: {msg}", st, none)
    | none =>
      let joined := String.intercalate ", " keys
      (s!"I pressed keys: {joined}.", st, none)

/-- The `history_back` branch of `_execute_action`. -/
def exec_history_back (st : RunState) (inp : RoundInput) (_args : ActionArgs) :
    String × RunState × Option String :=
  match inp.exec_fails with
  | some msg => (s!"Action failed: {msg}", st, none)
  | none => ("I went back to the previous page.", record_visit st inp.url_after_exec, none)

/-- The `web_search` branch of `_execute_action`. -/
def exec_web_search (st : RunState) (inp : RoundInput) (args : ActionArgs) :
    String × RunState × Option String :=
  let query := args.query.getD ""
  match inp.exec_fails with
  | some msg => (s!"Action failed: {msg}", st, none)
  | none => (s!"I searched for '{query}'.", st, none)

/-- The `wait` branch of `_execute_action`. -/
def exec_wait (st : RunState) (inp : RoundInput) (args : ActionArgs) :
    String × RunState × Option String :=
  let t0 := (match args.time with | some t => some t | none => args.duration).getD ⟨1, 1⟩
  let t := if t0.isZero then (⟨1, 1⟩ : PyNum) else t0
  match inp.exec_fails with
  | some msg => (s!"Action failed: {msg}", st, none)
  | none =>
    let ts := fmtQ t
    (s!"I waited for {ts} seconds.", st, none)

/-- The action-name normalization at the top of `_execute_action`
(`click` → `left_click`, `input_text` → `type`). -/
def normalize_action_name (a : Option String) : Option String :=
  if a == some "click" then some "left_click"
  else if a == some "input_text" then some "type"
  else a

/-- `FaraAgent._execute_action`, dispatching on the normalized action name
to the branch helpers above (branches for `double_click`, `right_click`,
`drag_and_drop`, `select_option`, `file_upload`, `wait_for_element`,
`switch_frame`, `switch_tab`, `pause_and_memorize_fact`, `reload` and
`history_forward`, and the `terminate` result string, are never dispatched
by `run_test_case` and are not modelled).  A raising browser call
(`exec_fails`) is caught and surfaced as an `Action failed:` result;
effects that precede the raising call (coordinate recording) still apply,
as in the source. -/
def execute_action (st : RunState) (inp : RoundInput) (args : ActionArgs) :
    String × RunState × Option String :=
  let action := normalize_action_name args.action
  if action == some "visit_url" then exec_visit_url st inp args
  else if action == some "left_click" then exec_left_click st inp args
  else if action == some "type" then exec_type st inp args
  else if action == some "mouse_move" || action == some "hover" then
    exec_mouse_move st inp args
  else if action == some "scroll" then exec_scroll st inp args
  else if action == some "key" || action == some "keypress" then exec_key st inp args
  else if action == some "history_back" then exec_history_back st inp args
  else if action == some "web_search" then exec_web_search st inp args
  else if action == some "wait" then exec_wait st inp args
  else
    let astr := match action with | some s => s | none => "None"
    (s!"Unknown action: {astr}", st, none)

/-! ### The round controller (`run_test_case`) as a step relation -/

/-- Outcome of one round: continue into the next round, or leave the loop
(the `break`s of `run_test_case`). -/
inductive StepResult where
  | go (st : RunState)
  | stop (st : RunState)
deriving DecidableEq

/-- The state carried by either outcome. -/
def StepResult.state : StepResult → RunState
  | .go s => s
  | .stop s => s

/-- Whether the round left the loop. -/
def StepResult.isStop : StepResult → Bool
  | .go _ => false
  | .stop _ => true

/-- The supervisor update of `_verified_expectations` after observation
(lines 1304–1314): record each scoped expectation found in the new page
text, keyed by the raw post-action URL, without duplicates. -/
def update_verified (tc : TestCase) (after_url after_text : String) (st : RunState) :
    RunState :=
  (extract_scoped_expectations_for_url tc after_url).foldl
    (fun s e =>
      if strContains (pyLower after_text) (pyLower e) then
        if (after_url, e) ∈ s.verified_expectations then s
        else { s with verified_expectations := s.verified_expectations ++ [(after_url, e)] }
      else s) st

/-- The observation-and-bookkeeping block of `run_test_case` after a
non-breaking action (lines 1291–1374): read the new URL/title/body, set the
page-changed flag, count the visit for non-`visit_url` navigations, record
newly satisfied scoped expectations and the navigation transition, capture
console errors, append the round's `ActionTrace` and the action-history
line.  `clicked` is the `_clicked_text` the click branch stored in the
arguments, `before_url_norm` the normalized URL captured before
execution. -/
def observe_and_update (tc : TestCase) (round_num : Nat) (inp : RoundInput)
    (response : String) (args : ActionArgs) (result : String)
    (clicked : Option String) (before_url_norm : String) (st : RunState) : RunState :=
  let after_url := inp.after_url
  let after_norm := normalize_for_compare after_url
  let st := { st with
    page_title := inp.after_title, page_text := inp.after_text,
    last_page_text := inp.after_text,
    browser_url := after_url,
    last_url_norm := some after_norm,
    visited_url_norms := insertOnce st.visited_url_norms after_norm,
    page_changed_since_last_action := after_norm != before_url_norm }
  let st :=
    if st.page_changed_since_last_action && args.action != some "visit_url" then
      record_visit st after_url
    else st
  let st := update_verified tc after_url inp.after_text st
  let st :=
    if st.page_changed_since_last_action then
      { st with transitions := takeLast 20 (st.transitions ++
          [⟨before_url_norm, after_norm, args.action, clicked⟩]) }
    else st
  let errs := (inp.console_msgs.filter (fun m => m.1 == "error")).map (·.2)
  let st :=
    if !errs.isEmpty then { st with console_errors := st.console_errors ++ takeLast 5 errs }
    else st
  let st := { st with actions := st.actions ++
    [(⟨round_num + 1, args.action.getD "unknown", response, result, inp.after_url,
      if !errs.isEmpty then some (takeLast 3 errs) else none⟩ : ActionTrace)] }
  let actName := args.action.getD "None"
  { st with action_history := st.action_history ++
    [s!"{round_num + 1}. {actName}: {result}"] }

/-- Everything `run_test_case` does after executing the round's action
(lines 1229–1439): streak update and 3-in-a-row break, bucket-threshold
break, then `observe_and_update`, the error-page auto-verdict and the
visited-3-times-with-missing-text break. -/
def after_exec_checks (tc : TestCase) (round_num : Nat) (inp : RoundInput)
    (response : String) (args : ActionArgs) (result : String)
    (clicked : Option String) (before_url_norm : String) (st0 : RunState) : StepResult :=
  let sig := action_signature st0 inp.url_after_exec args
  let st := update_streak st0 sig
  if st.repeat_action_streak ≥ 3 then
    let reason := "Loop detected: repeated the same action 3 times in a row without progress."
    .stop { st with
        fail_reason := reason,
        actions := st.actions ++
          [⟨round_num + 1, args.action.getD "unknown", response, reason,
            inp.url_after_exec, none⟩] }
  else
    match detect_loop_blocker st with
    | some loop_reason =>
      .stop { st with
          fail_reason := loop_reason,
          actions := st.actions ++
            [⟨round_num + 1, args.action.getD "unknown", response, loop_reason,
              inp.url_after_exec, none⟩] }
    | none =>
      let st := observe_and_update tc round_num inp response args result clicked before_url_norm st
      let av := check_auto_verdict tc inp.after_url inp.after_title inp.after_text
      match av.1 with
      | some b =>
        let reason := av.2.getD (if b then "Auto pass" else "Auto fail")
        .stop { st with
            success := b,
            fail_reason := reason,
            actions := st.actions ++
              [⟨round_num + 1, "auto_terminate", response, reason, inp.after_url, none⟩] }
      | none =>
        let norm_url := normalize_for_compare inp.after_url
        let url_visits := alGet st.visit_counts norm_url
        let scopedExp := extract_scoped_expectations_for_url tc inp.after_url
        if url_visits ≥ 3 && !scopedExp.isEmpty then
          match scopedExp.filter (fun e => !strContains (pyLower inp.after_text) (pyLower e)) with
          | m :: _ =>
            let reason := s!"Loop detected: visited same page 3+ times and missing expected text '{m}'."
            .stop { st with
                success := false,
                fail_reason := reason,
                actions := st.actions ++
                  [⟨round_num + 1, "auto_terminate", response, reason, inp.after_url, none⟩] }
          | [] => .go st
        else .go st

/-- The bookkeeping `run_test_case` performs between a successful parse and
the terminate check (lines 1173–1194): clear the one-shot flags, record the
model's reasoning text, and auto-memorize the start-URL fact. -/
def pre_action_bookkeeping (tc : TestCase) (response : String) (st : RunState) : RunState :=
  let st := { st with
    page_changed_since_last_action := false,
    page_changed := false,
    just_submitted := false }
  let rt :=
    let r := pyStrip (beforeFirst "<tool_call>" response)
    if r != "" then r else pyStrip response
  let st :=
    if rt != "" then
      { st with reasoning_history := takeLast 4 (st.reasoning_history ++ [rt.take 400]) }
    else st
  match tc.start_url with
  | some su =>
    if su != ""
        && normalize_for_compare st.browser_url == normalize_for_compare su then
      let fact := s!"Visited start_url: {su}"
      if fact ∈ st.facts then st else { st with facts := st.facts ++ [fact] }
    else st
  | none => st

/-- The rest of a round once an allowed action is in hand (lines
1173–1439): `pre_action_bookkeeping`, the `terminate` branch, execution of
the action and `after_exec_checks`. -/
def runAfterParse (tc : TestCase) (round_num : Nat) (inp : RoundInput)
    (st : RunState) (response : String) (args : ActionArgs) : StepResult :=
  let st := pre_action_bookkeeping tc response st
  if args.action == some "terminate" then
    let status0 := pyLower (args.status.getD "")
    let status := if status0 == "" then "failure" else status0
    let r1 := args.reason.getD ""
    let r2 := if r1 != "" then r1 else args.message.getD ""
    let success := status == "success"
    let fail_reason := if r2 != "" then r2 else s!"Model terminated with status: {status}"
    .stop { st with
        success := success,
        fail_reason := fail_reason,
        actions := st.actions ++
          [⟨round_num + 1, "terminate", response,
            (if r2 != "" then r2 else "terminate"), st.browser_url, none⟩] }
  else
    let before_url_norm := normalize_for_compare st.browser_url
    let r := execute_action st inp args
    after_exec_checks tc round_num inp response args r.1 r.2.2 before_url_norm r.2.1

/-- One round of `run_test_case` (the body of the `for` loop, lines
1043–1439): latch/clear-on-page-change, the scoped-text auto-FAIL, the
auto-PASS check, the model call with one repair attempt, then
`runAfterParse`. -/
def runRound (tc : TestCase) (round_num : Nat) (inp : RoundInput)
    (st : RunState) : StepResult :=
  let st := round_start_clear st
  let tcheck := check_text_expectations tc st.browser_url st.page_text st.page_changed
  if tcheck.1.isSome then
    let reason := tcheck.2.getD "Auto fail: expected text missing after navigation."
    .stop { st with
        success := false,
        fail_reason := reason,
        actions := st.actions ++
          [⟨round_num + 1, "auto_terminate", "", reason, st.browser_url, none⟩] }
  else
    let ap := check_auto_pass tc st st.browser_url
    if ap.1 then
      let reason := ap.2.getD "Pass criteria satisfied."
      .stop { st with
          success := true,
          fail_reason := reason,
          actions := st.actions ++
            [⟨round_num + 1, "auto_terminate", "", reason, st.browser_url, none⟩] }
    else
      let st := { st with last_im_size := some inp.im_size }
      match inp.model_response with
      | .error e => .stop { st with fail_reason := s!"LLM error: {e}" }
      | .ok turn =>
        let firstTry : Option (String × ActionArgs) :=
          match turn.parsed with
          | some a => if is_action_allowed (some a) then some (turn.raw, a) else none
          | none => none
        match firstTry with
        | some ra => runAfterParse tc round_num inp st ra.1 ra.2
        | none =>
          match inp.repair_response with
          | .error _ =>
            .stop { st with fail_reason := "Model did not return a valid tool call." }
          | .ok rturn =>
            match rturn.parsed with
            | some a =>
              if is_action_allowed (some a) then runAfterParse tc round_num inp st rturn.raw a
              else .stop { st with fail_reason := "Model did not return a valid tool call." }
            | none =>
              .stop { st with fail_reason := "Model did not return a valid tool call." }

/-- The `for round_num in range(max_rounds)` loop with its `break`s:
`fuel` is the number of rounds left, `i` the current 0-based round index. -/
def run_loop (tc : TestCase) (script : Nat → RoundInput) :
    Nat → Nat → RunState → RunState
  | 0, _, st => st
  | fuel + 1, i, st =>
    match runRound tc i (script i) st with
    | .stop st' => st'
    | .go st' => run_loop tc script fuel (i + 1) st'

/-- `self.max_rounds` after the `if test_case.max_rounds:` override. -/
def eff_max_rounds (config_max : Nat) (tc : TestCase) : Nat :=
  match tc.max_rounds with
  | some n => if n ≠ 0 then n else config_max
  | none => config_max

/-- The state of `run_test_case` at the top of the round loop (lines
967–1041): counters reset, optional `start_url` visit recorded, the initial
observation taken and initially-visible scoped expectations pre-verified.
`init_url`/`init_title`/`init_text` are the initial observation the browser
reports, `im0` the prompt-image size after the optional viewport sync. -/
def init_state (tc : TestCase) (viewport_w viewport_h : PyNum)
    (im0 : Option (PyNum × PyNum)) (init_url init_title init_text : String) : RunState :=
  let visit0 : List (String × Nat) := match tc.start_url with
    | some su => if su != "" then [(normalize_for_compare su, 1)] else []
    | none => []
  let visited0 : List String := match tc.start_url with
    | some su => if su != "" then [normalize_for_compare su] else []
    | none => []
  let lun := normalize_for_compare init_url
  let visited1 := if lun != "" then insertOnce visited0 lun else visited0
  let verified0 := (extract_scoped_expectations_for_url tc init_url).foldl
    (fun acc e =>
      if strContains (pyLower init_text) (pyLower e) && (init_url, e) ∉ acc then
        acc ++ [(init_url, e)]
      else acc) []
  { click_counts := [], type_counts := [], visit_counts := visit0,
    last_action_signature := none, repeat_action_streak := 0,
    last_page_text := init_text, last_url_norm := some lun,
    verified_expectations := verified0, transitions := [],
    page_changed_since_last_action := false, page_changed := false,
    just_submitted := false,
    facts := [], reasoning_history := [], console_errors := [],
    visited_url_norms := visited1, last_im_size := im0,
    viewport_width := viewport_w, viewport_height := viewport_h,
    browser_url := init_url, page_title := init_title, page_text := init_text,
    actions := [], action_history := [],
    success := false, fail_reason := "Max rounds reached." }

/-- `FaraAgent.run_test_case` from the top of the round loop to the returned
`TestRunResult` (lines 1043–1468): run up to `eff_max_rounds` rounds against
the environment `script`, then package the terminal value. -/
def run_test_case (tc : TestCase) (config_max : Nat) (script : Nat → RoundInput)
    (st0 : RunState) : TestRunResult :=
  let stF := run_loop tc script (eff_max_rounds config_max tc) 0 st0
  { success := stF.success,
    reason := if stF.success then "Completed successfully." else stF.fail_reason,
    actions := stF.actions,
    facts := stF.facts,
    final_url := stF.browser_url,
    console_errors := stF.console_errors }

/-- Decidable transcript predicate: every one of the next `fuel` rounds
continues (no break fires). -/
def rounds_all_go (tc : TestCase) (script : Nat → RoundInput) :
    Nat → Nat → RunState → Bool
  | 0, _, _ => true
  | fuel + 1, i, st =>
    match runRound tc i (script i) st with
    | .go st' => rounds_all_go tc script fuel (i + 1) st'
    | .stop _ => false


/-! ### Claim fixtures: concrete tasks and states used by counterexamples
and witnesses -/

/-- Task for C1's counterexample: a final-URL pass criterion with no quoted
expectation anywhere, plus a quoted click step. -/
def tcC1 : TestCase :=
  { pass_criteria := ["browser is at https://x/done"],
    objective_steps := ["Click \"Go\""] }

/-- State for C1's counterexample: a recent click-driven transition to the
final URL. -/
def stC1 : RunState :=
  { transitions := [⟨"https://x/start", "https://x/done", some "left_click", some "Go"⟩] }

/-- Task for C2's counterexample: a verified URL-scoped pair, an explicit
final URL, and objective steps with no parseable click target. -/
def tcC2 : TestCase :=
  { pass_criteria := ["Page contains \"Welcome\" at https://x/done",
                      "browser is at https://x/done"],
    objective_steps := ["Open the landing page"] }

/-- State for C2's counterexample: the pair is verified and the transition
list ends in a click-driven transition to the final URL. -/
def stC2 : RunState :=
  { verified_expectations := [("https://x/done", "Welcome")],
    transitions := [⟨"https://x/start", "https://x/done", some "left_click", none⟩] }

/-- The exact task of C3 (spec §8): one pass criterion carrying both the
quoted text and the URL, and a quoted click step. -/
def tcC3 : TestCase :=
  { pass_criteria := ["Page contains \"Welcome\" at https://x/done"],
    objective_steps := ["Click \"Confirm\""] }

/-- C3's task amended with a pure final-URL criterion, the minimal change
that makes `_check_auto_pass` able to fire. -/
def tcC3' : TestCase :=
  { pass_criteria := ["Page contains \"Welcome\" at https://x/done",
                      "browser is at https://x/done"],
    objective_steps := ["Click \"Confirm\""] }

/-- The exact round state of C3: pair already verified, transition list
ending in the confirming click. -/
def stC3 : RunState :=
  { verified_expectations := [("https://x/done", "Welcome")],
    transitions := [⟨"https://x/start", "https://x/done", some "left_click", some "Confirm"⟩] }

/-- Task for C4's counterexample: failure criteria mention login, and the
start URL does not itself contain "login". -/
def tcC4 : TestCase :=
  { fail_criteria := ["User cannot login"],
    start_url := some "https://x/start" }

/-! ### C1 -/

/-- C1: the claim says auto-PASS never fires when no `(url, quoted)` pair is
extractable from the pass criteria.  False: with `["browser is at
https://x/done"]` no pair is extractable, yet the check returns PASS given a
click-driven transition to that URL. -/
theorem c1_counterexample :
    required_pairs_of tcC1.pass_criteria = []
    ∧ (check_auto_pass tcC1 stC1 "https://x/done").1 = true := by
  decide

/-- C1 (amended): if no pass criterion contains a URL at all — so neither a
`(url, quoted)` pair nor a final URL is extractable — the auto-PASS check
returns no verdict, for every round state and current URL. -/
theorem c1_amended (tc : TestCase) (st : RunState) (url : String)
    (h : ∀ c ∈ tc.pass_criteria, parse_url_in_text c = none) :
    (check_auto_pass tc st url).1 = false := by
  have hfold : ∀ (l : List String) (acc : Option String),
      (∀ c ∈ l, parse_url_in_text c = none) →
      l.foldl (fun acc crit =>
        match parse_url_in_text crit with
        | some u =>
          if (extract_expected_text crit).isNone
              && (["browser is at", "is at", "returns to", "at "].any
                (fun p => strContains (pyLower crit) p)) then
            some u
          else acc
        | none => acc) acc = acc := by
    intro l
    induction l with
    | nil => intro acc _; rfl
    | cons c cs ih =>
      intro acc hall
      have hc := hall c (List.mem_cons_self c cs)
      simp only [List.foldl_cons, hc]
      exact ih acc (fun d hd => hall d (List.mem_cons_of_mem c hd))
  have hfinal : final_url_norm_of tc.pass_criteria = none := hfold _ none h
  simp only [check_auto_pass, hfinal]
  split
  · rfl
  · split
    · rfl
    · rfl

/-- C1 witness: the amended statement at a URL-free pass criterion. -/
theorem c1_witness :
    (check_auto_pass { pass_criteria := ["The page shows a greeting"] } {} "https://x/a").1
      = false :=
  c1_amended _ _ _ (by decide)

/-! ### C2 -/

/-- C2: the claim says that with no parseable click-target text the
auto-PASS fallback accepts any recent click-driven transition to the final
URL and returns PASS.  False: with every other condition satisfied (the
URL-scoped pair verified, an explicit final URL, the current URL equal to
it, and the last transition a click to it) but no click target, the code
returns no verdict. -/
theorem c2_counterexample :
    extract_click_target_texts tcC2 = []
    ∧ final_url_norm_of tcC2.pass_criteria = some "https://x/done"
    ∧ (required_pairs_of tcC2.pass_criteria).all (fun p =>
        stC2.verified_expectations.any
          (fun v => normalize_for_compare v.1 == p.1 && v.2 == p.2)) = true
    ∧ (stC2.transitions.reverse.take 2).any
        (fun tr => tr.toUrl == "https://x/done" && tr.action == some "left_click") = true
    ∧ (check_auto_pass tcC2 stC2 "https://x/done").1 = false := by
  decide

/-- C2 (amended): when no quoted click-target text is parseable from the
objective steps, the auto-PASS check returns no verdict, whatever the round
state and current URL; the weaker click-transition fallback applies only
when click targets exist but none matches a transition's clicked text. -/
theorem c2_amended (tc : TestCase) (st : RunState) (url : String)
    (h : extract_click_target_texts tc = []) :
    (check_auto_pass tc st url).1 = false := by
  simp only [check_auto_pass, h, List.map_nil, List.isEmpty_nil, if_true]
  split
  · rfl
  · split
    · rfl
    · split
      · rfl
      · split
        · rfl
        · rfl

/-- C2 witness: the amended statement on the C2 fixture. -/
theorem c2_witness : (check_auto_pass tcC2 stC2 "https://x/done").1 = false :=
  c2_amended _ _ _ (by decide)

/-! ### C3 -/

/-- C3: the spec's scenario — pass criteria `["Page contains "Welcome" at
https://x/done"]`, step `Click "Confirm"`, the pair already verified, the
transition list ending in the confirming click, current URL the final URL —
must make auto-PASS fire.  False: the single criterion carries a quoted
expectation, so `_check_auto_pass` never infers a final URL (`expected is
None` fails) and returns no verdict. -/
theorem c3_counterexample :
    check_auto_pass tcC3 stC3 "https://x/done" = (false, none)
    ∧ stC3.verified_expectations = [("https://x/done", "Welcome")]
    ∧ final_url_norm_of tcC3.pass_criteria = none := by
  decide

/-- C3 (amended): the same scenario with an additional pure final-URL pass
criterion ("browser is at https://x/done") makes auto-PASS fire, with a
reason citing the satisfied criteria and the confirming click. -/
theorem c3_amended :
    check_auto_pass tcC3' stC3 "https://x/done"
      = (true, some "All URL-scoped pass criteria satisfied and clicked 'confirm' navigated to final URL.") := by
  decide

/-! ### C4 -/

/-- C4: the claim says the error-page heuristic returns FAIL whenever the
failure criteria mention login and the normalized current URL equals the
normalized start URL.  False: the code additionally requires the lower-cased
URL to contain "login"; at the start URL `https://x/start` (which does not)
the heuristic returns no verdict. -/
theorem c4_counterexample :
    check_auto_verdict tcC4 "https://x/start" "" "" = (none, none)
    ∧ strContains (pyLower (String.intercalate " " tcC4.fail_criteria)) "login" = true
    ∧ normalize_for_compare "https://x/start"
        = normalize_for_compare (tcC4.start_url.getD "") := by
  decide

/-- C4 (amended): the heuristic returns FAIL if the lower-cased URL or title
contains one of the fixed error terms, or the lower-cased body text contains
"404" or "not found", or the failure criteria mention login AND the
lower-cased URL contains "login" AND it equals the lower-cased start URL
stripped of trailing slashes (nonempty); and it never returns PASS. -/
theorem c4_amended (tc : TestCase) (url title text : String) :
    ((error_terms.any (fun t => strContains (pyLower url) t)
        || error_terms.any (fun t => strContains (pyLower title) t)
        || strContains (pyLower text) "404"
        || strContains (pyLower text) "not found"
        || (strContains (pyLower (String.intercalate " " tc.fail_criteria)) "login"
            && strContains (pyLower url) "login"
            && pyRstripSlashes (tc.start_url.getD "") != ""
            && pyLower url == pyLower (pyRstripSlashes (tc.start_url.getD "")))) = true →
      (check_auto_verdict tc url title text).1 = some false)
    ∧ (check_auto_verdict tc url title text).1 ≠ some true := by
  simp only [check_auto_verdict]
  split
  · exact ⟨fun _ => rfl, by simp⟩
  · split
    · exact ⟨fun _ => rfl, by simp⟩
    · split
      · exact ⟨fun _ => rfl, by simp⟩
      · refine ⟨fun h => absurd h ?_, by simp⟩
        rename_i h1 h2 h3
        simp only [Bool.or_eq_true, Bool.and_eq_true, not_or] at h1 h2 h3 ⊢
        tauto

/-- C4 witness: the amended statement at a URL containing an error term. -/
theorem c4_witness :
    (check_auto_verdict tcC4 "https://x/404" "" "").1 = some false ∧
    (check_auto_verdict tcC4 "https://x/404" "" "").1 ≠ some true :=
  ⟨(c4_amended tcC4 "https://x/404" "" "").1 (by decide),
   (c4_amended tcC4 "https://x/404" "" "").2⟩

/-! ### C6 -/

/-- C6: at the start of a round in which the page changed since the last
action, the clearing step empties the bucketed click and type counters and
leaves the visit counters, repeat signature and streak, verified
expectations and transitions unchanged. -/
theorem c6_round_start_clearing (st : RunState)
    (h : st.page_changed_since_last_action = true) :
    (round_start_clear st).click_counts = []
    ∧ (round_start_clear st).type_counts = []
    ∧ (round_start_clear st).visit_counts = st.visit_counts
    ∧ (round_start_clear st).last_action_signature = st.last_action_signature
    ∧ (round_start_clear st).repeat_action_streak = st.repeat_action_streak
    ∧ (round_start_clear st).verified_expectations = st.verified_expectations
    ∧ (round_start_clear st).transitions = st.transitions := by
  simp [round_start_clear, h]

/-- C6 witness: the clearing step at a concrete populated state. -/
theorem c6_witness :
    (round_start_clear
      { page_changed_since_last_action := true,
        click_counts := [((20, 20), 3)], type_counts := [((40, 0), 2)],
        visit_counts := [("https://x/a", 2)],
        last_action_signature := some "wait|https://x/a|None|None",
        repeat_action_streak := 2,
        verified_expectations := [("https://x/a", "Hi")],
        transitions := [⟨"u", "v", some "left_click", none⟩] }).click_counts = []
    ∧ (round_start_clear
      { page_changed_since_last_action := true,
        click_counts := [((20, 20), 3)], type_counts := [((40, 0), 2)],
        visit_counts := [("https://x/a", 2)],
        last_action_signature := some "wait|https://x/a|None|None",
        repeat_action_streak := 2,
        verified_expectations := [("https://x/a", "Hi")],
        transitions := [⟨"u", "v", some "left_click", none⟩] }).visit_counts
        = [("https://x/a", 2)] := by
  have h := c6_round_start_clearing
    { page_changed_since_last_action := true,
      click_counts := [((20, 20), 3)], type_counts := [((40, 0), 2)],
      visit_counts := [("https://x/a", 2)],
      last_action_signature := some "wait|https://x/a|None|None",
      repeat_action_streak := 2,
      verified_expectations := [("https://x/a", "Hi")],
      transitions := [⟨"u", "v", some "left_click", none⟩] } rfl
  exact ⟨h.1, h.2.2.1⟩

/-! ### C10 -/

/-- C10: a `terminate` action ends the run, with success exactly when the
status argument lower-cases to "success"; a missing or empty status defaults
to "failure" and hence success is false. -/
theorem c10_terminate_status (tc : TestCase) (n : Nat) (inp : RoundInput)
    (st : RunState) (response : String) (args : ActionArgs)
    (h : args.action = some "terminate") :
    (runAfterParse tc n inp st response args).isStop = true
    ∧ (runAfterParse tc n inp st response args).state.success
        = (pyLower (args.status.getD "") == "success") := by
  have hstatus : ∀ s0 : String,
      ((if (s0 == "") = true then "failure" else s0) == "success") = (s0 == "success") := by
    intro s0
    by_cases hs : (s0 == "") = true
    · rw [if_pos hs]
      have hs' : s0 = "" := by
        simpa using hs
      rw [hs']
      rfl
    · rw [if_neg hs]
  simp only [runAfterParse, h, beq_self_eq_true, eq_self_iff_true, if_true]
  exact ⟨rfl, hstatus _⟩

/-- C10 witness: an upper-case "Success" status ends the run successfully;
a status-free terminate ends it unsuccessfully. -/
theorem c10_witness :
    (runAfterParse {} 0 { model_response := .error "" } {} ""
      { action := some "terminate", status := some "Success" }).state.success = true
    ∧ (runAfterParse {} 0 { model_response := .error "" } {} ""
      { action := some "terminate" }).state.success = false := by
  have h1 := (c10_terminate_status {} 0 { model_response := .error "" } {} ""
    { action := some "terminate", status := some "Success" } rfl).2
  have h2 := (c10_terminate_status {} 0 { model_response := .error "" } {} ""
    { action := some "terminate" } rfl).2
  rw [h1, h2]
  exact ⟨rfl, rfl⟩

/-! ### C5 -/

/-- Task for C5's counterexample (only the round budget matters). -/
def tcC5 : TestCase := { max_rounds := some 6 }

/-- Environment for C5's counterexample: clicks in the same 20px bucket on a
static page, with one interposed scroll so the click counter reaches 4 in
the same round in which the signature streak reaches 3. -/
def scriptC5 : Nat → RoundInput := fun i =>
  if i == 1 then
    { model_response := .ok ⟨"", some { action := some "scroll", pixels := some ⟨10, 1⟩ }⟩,
      url_after_exec := "https://x/a", after_url := "https://x/a" }
  else
    { model_response := .ok ⟨"", some { action := some "left_click",
                                        coordinate := some (⟨20, 1⟩, ⟨20, 1⟩) }⟩,
      url_after_exec := "https://x/a", after_url := "https://x/a" }

set_option maxHeartbeats 2000000 in
/-- C5: the claim says that whenever a bucketed click counter reaches 4 or
more the run terminates citing "clicked the same region 4+ times without
progress".  False: in this run the 4th click in bucket (20, 20) arrives in
the same round in which the repeat-signature streak reaches 3, and the run
aborts with the streak reason instead (the streak check runs first). -/
theorem c5_counterexample :
    alGet (run_loop tcC5 scriptC5 6 0
      (init_state tcC5 ⟨100, 1⟩ ⟨100, 1⟩ (some (⟨100, 1⟩, ⟨100, 1⟩)) "https://x/a" "" "")).click_counts
      (20, 20) = 4
    ∧ (run_loop tcC5 scriptC5 6 0
        (init_state tcC5 ⟨100, 1⟩ ⟨100, 1⟩ (some (⟨100, 1⟩, ⟨100, 1⟩)) "https://x/a" "" "")).fail_reason
      = "Loop detected: repeated the same action 3 times in a row without progress."
    ∧ (run_loop tcC5 scriptC5 6 0
        (init_state tcC5 ⟨100, 1⟩ ⟨100, 1⟩ (some (⟨100, 1⟩, ⟨100, 1⟩)) "https://x/a" "" "")).fail_reason
      ≠ "Loop detected: clicked the same region 4+ times without progress." := by
  decide

set_option maxHeartbeats 2000000 in
/-- C5 (amended): after executing a round's action the checks run in order —
a signature streak of 3 or more aborts the run with the repeated-action
reason before a 4th round begins; only otherwise does a click bucket of 4+
abort citing the clicked-region reason, and only when neither holds does a
type bucket of 3+ abort citing the typed-field reason. -/
theorem c5_amended (tc : TestCase) (n : Nat) (inp : RoundInput) (response : String)
    (args : ActionArgs) (result : String) (clicked : Option String)
    (burl : String) (st0 : RunState) :
    ∀ st1, st1 = update_streak st0 (action_signature st0 inp.url_after_exec args) →
      (st1.repeat_action_streak ≥ 3 →
        after_exec_checks tc n inp response args result clicked burl st0 =
          .stop { st1 with
              fail_reason := "Loop detected: repeated the same action 3 times in a row without progress.",
              actions := st1.actions ++
                [⟨n + 1, args.action.getD "unknown", response,
                  "Loop detected: repeated the same action 3 times in a row without progress.",
                  inp.url_after_exec, none⟩] })
      ∧ (st1.repeat_action_streak < 3 → maxVals st1.click_counts ≥ 4 →
        after_exec_checks tc n inp response args result clicked burl st0 =
          .stop { st1 with
              fail_reason := "Loop detected: clicked the same region 4+ times without progress.",
              actions := st1.actions ++
                [⟨n + 1, args.action.getD "unknown", response,
                  "Loop detected: clicked the same region 4+ times without progress.",
                  inp.url_after_exec, none⟩] })
      ∧ (st1.repeat_action_streak < 3 → maxVals st1.click_counts < 4 →
          maxVals st1.type_counts ≥ 3 →
        after_exec_checks tc n inp response args result clicked burl st0 =
          .stop { st1 with
              fail_reason := "Loop detected: typed in the same field 3+ times without progress.",
              actions := st1.actions ++
                [⟨n + 1, args.action.getD "unknown", response,
                  "Loop detected: typed in the same field 3+ times without progress.",
                  inp.url_after_exec, none⟩] }) := by
  intro st1 hst1
  subst hst1
  refine ⟨fun hs => ?_, fun hs hc => ?_, fun hs hc ht => ?_⟩
  · simp only [after_exec_checks]
    split
    · rfl
    · rename_i hcon
      omega
  · have hd : detect_loop_blocker
        (update_streak st0 (action_signature st0 inp.url_after_exec args))
        = some "Loop detected: clicked the same region 4+ times without progress." := by
      unfold detect_loop_blocker
      rw [if_pos hc]
    simp only [after_exec_checks]
    split
    · rename_i hcon
      omega
    · split
      · rename_i r heq
        rw [hd] at heq
        cases heq
        rfl
      · rename_i heq
        rw [hd] at heq
        cases heq
  · have hd : detect_loop_blocker
        (update_streak st0 (action_signature st0 inp.url_after_exec args))
        = some "Loop detected: typed in the same field 3+ times without progress." := by
      unfold detect_loop_blocker
      rw [if_neg (by omega), if_pos ht]
    simp only [after_exec_checks]
    split
    · rename_i hcon
      omega
    · split
      · rename_i r heq
        rw [hd] at heq
        cases heq
        rfl
      · rename_i heq
        rw [hd] at heq
        cases heq

/-- C5 witness: the streak clause at a concrete post-execution state whose
signature matches the previous round's and whose streak was already 2. -/
theorem c5_witness :
    (after_exec_checks {} 0
      { model_response := .error "", url_after_exec := "https://x/a" } ""
      { action := some "wait" } "r" none "u"
      { last_action_signature := some "wait|https://x/a|None|None",
        repeat_action_streak := 2 }).state.fail_reason
      = "Loop detected: repeated the same action 3 times in a row without progress." := by
  have h := (c5_amended {} 0
    { model_response := .error "", url_after_exec := "https://x/a" } ""
    { action := some "wait" } "r" none "u"
    { last_action_signature := some "wait|https://x/a|None|None",
      repeat_action_streak := 2 } _ rfl).1 (by decide)
  rw [h]
  rfl

/-! ### C9 -/

/-- The clearing step never touches the loop's success flag. -/
@[simp] theorem round_start_clear_success (st : RunState) :
    (round_start_clear st).success = st.success := by
  simp only [round_start_clear]
  split <;> rfl

/-- The clearing step never touches the loop's failure reason. -/
@[simp] theorem round_start_clear_fail_reason (st : RunState) :
    (round_start_clear st).fail_reason = st.fail_reason := by
  simp only [round_start_clear]
  split <;> rfl

/-- The clearing step never touches the trace list. -/
@[simp] theorem round_start_clear_actions (st : RunState) :
    (round_start_clear st).actions = st.actions := by
  simp only [round_start_clear]
  split <;> rfl

/-- C9: when the first model response of a round does not parse into an
allowed action, exactly one repair call is consulted; if the repaired
response also fails to parse into an allowed action — or the repair call
itself raises — the round ends the run with success false, reason exactly
"Model did not return a valid tool call.", and no trace appended.  The
embedding consumes a single repair input per round, so no second repair
attempt exists. -/
theorem c9_repair_failure_terminates (tc : TestCase) (n : Nat) (inp : RoundInput)
    (st : RunState) (turn : ParsedTurn)
    (hsucc : st.success = false)
    (htext : (check_text_expectations tc (round_start_clear st).browser_url
        (round_start_clear st).page_text (round_start_clear st).page_changed).1 = none)
    (hpass : (check_auto_pass tc (round_start_clear st)
        (round_start_clear st).browser_url).1 = false)
    (hmodel : inp.model_response = .ok turn)
    (hfirst : ∀ a, turn.parsed = some a → is_action_allowed (some a) = false)
    (hrepair : ∀ rturn, inp.repair_response = .ok rturn →
        ∀ a, rturn.parsed = some a → is_action_allowed (some a) = false) :
    (runRound tc n inp st).isStop = true
    ∧ (runRound tc n inp st).state.fail_reason = "Model did not return a valid tool call."
    ∧ (runRound tc n inp st).state.success = false
    ∧ (runRound tc n inp st).state.actions = st.actions := by
  have hgoal : runRound tc n inp st =
      .stop { round_start_clear st with
              last_im_size := some inp.im_size,
              fail_reason := "Model did not return a valid tool call." } := by
    simp only [runRound, htext, hmodel, Option.isSome_none, Bool.false_eq_true, if_false,
      hpass]
    cases hp : turn.parsed with
    | none =>
      dsimp only
      cases hr : inp.repair_response with
      | error u => rfl
      | ok rturn =>
        dsimp only
        cases hq : rturn.parsed with
        | none => rfl
        | some a =>
          dsimp only
          rw [hrepair rturn hr a hq]
          rfl
    | some a =>
      dsimp only
      rw [hfirst a hp]
      simp only [Bool.false_eq_true, if_false]
      cases hr : inp.repair_response with
      | error u => rfl
      | ok rturn =>
        dsimp only
        cases hq : rturn.parsed with
        | none => rfl
        | some b =>
          dsimp only
          rw [hrepair rturn hr b hq]
          rfl
  rw [hgoal]
  refine ⟨rfl, rfl, ?_, ?_⟩
  · show (round_start_clear st).success = false
    rw [round_start_clear_success, hsucc]
  · show (round_start_clear st).actions = st.actions
    rw [round_start_clear_actions]

/-- C9 witness: a round whose model response parses to a disallowed action
and whose repair response parses to nothing terminates the run with the
invalid-tool-call reason and no trace. -/
theorem c9_witness :
    (runRound {} 0
      { model_response := .ok ⟨"prose", some { action := some "dance" }⟩,
        repair_response := .ok ⟨"more prose", none⟩ }
      { browser_url := "https://x/a" }).isStop = true
    ∧ (runRound {} 0
      { model_response := .ok ⟨"prose", some { action := some "dance" }⟩,
        repair_response := .ok ⟨"more prose", none⟩ }
      { browser_url := "https://x/a" }).state.fail_reason
      = "Model did not return a valid tool call."
    ∧ (runRound {} 0
      { model_response := .ok ⟨"prose", some { action := some "dance" }⟩,
        repair_response := .ok ⟨"more prose", none⟩ }
      { browser_url := "https://x/a" }).state.success = false
    ∧ (runRound {} 0
      { model_response := .ok ⟨"prose", some { action := some "dance" }⟩,
        repair_response := .ok ⟨"more prose", none⟩ }
      { browser_url := "https://x/a" }).state.actions
      = ({ browser_url := "https://x/a" } : RunState).actions :=
  c9_repair_failure_terminates {} 0
    { model_response := .ok ⟨"prose", some { action := some "dance" }⟩,
      repair_response := .ok ⟨"more prose", none⟩ }
    { browser_url := "https://x/a" } ⟨"prose", some { action := some "dance" }⟩
    rfl (by decide) (by decide) rfl
    (by intro a ha; cases ha; decide)
    (by intro rturn hr a ha; cases hr; cases ha)

/-! ### C8 -/

/-- Spec-side formulation of order-preserving de-duplication: left fold that
keeps each string's first occurrence. -/
def keepFirst (l : List String) : List String :=
  l.foldl (fun acc x => if x ∈ acc then acc else acc ++ [x]) []

/-- Members of the de-duplicated list come from the raw list and were not in
the seen set. -/
theorem mem_dedupFirstAux :
    ∀ (l seen : List String) (a : String),
      a ∈ dedupFirstAux seen l → a ∈ l ∧ a ∉ seen := by
  intro l
  induction l with
  | nil =>
    intro seen a h
    simp [dedupFirstAux] at h
  | cons x xs ih =>
    intro seen a h
    simp only [dedupFirstAux] at h
    by_cases hx : x ∈ seen
    · rw [if_pos hx] at h
      obtain ⟨h1, h2⟩ := ih seen a h
      exact ⟨List.mem_cons_of_mem _ h1, h2⟩
    · rw [if_neg hx] at h
      rcases List.mem_cons.mp h with rfl | h'
      · exact ⟨List.mem_cons_self _ _, hx⟩
      · obtain ⟨h1, h2⟩ := ih (x :: seen) a h'
        exact ⟨List.mem_cons_of_mem _ h1, fun hs => h2 (List.mem_cons_of_mem _ hs)⟩

/-- The de-duplicated list has no duplicates. -/
theorem dedupFirstAux_nodup :
    ∀ (l seen : List String), (dedupFirstAux seen l).Nodup := by
  intro l
  induction l with
  | nil => intro seen; simp [dedupFirstAux]
  | cons x xs ih =>
    intro seen
    simp only [dedupFirstAux]
    by_cases hx : x ∈ seen
    · rw [if_pos hx]
      exact ih seen
    · rw [if_neg hx]
      refine List.nodup_cons.mpr ⟨fun hmem => ?_, ih (x :: seen)⟩
      exact (mem_dedupFirstAux xs (x :: seen) x hmem).2 (List.mem_cons_self x seen)

/-- The seen-set recursion agrees with the keep-first left fold. -/
theorem dedupFirstAux_foldl :
    ∀ (l seen acc : List String), (∀ x, x ∈ seen ↔ x ∈ acc) →
      acc ++ dedupFirstAux seen l
        = l.foldl (fun acc x => if x ∈ acc then acc else acc ++ [x]) acc := by
  intro l
  induction l with
  | nil => intro seen acc _; simp [dedupFirstAux]
  | cons x xs ih =>
    intro seen acc h
    simp only [dedupFirstAux, List.foldl_cons]
    by_cases hx : x ∈ seen
    · rw [if_pos hx, if_pos ((h x).mp hx)]
      exact ih seen acc h
    · have hx' : x ∉ acc := fun hh => hx ((h x).mpr hh)
      rw [if_neg hx, if_neg hx']
      have hmem : ∀ y, y ∈ x :: seen ↔ y ∈ acc ++ [x] := by
        intro y
        simp [List.mem_cons, List.mem_append, h y, or_comm]
      calc acc ++ x :: dedupFirstAux (x :: seen) xs
          = (acc ++ [x]) ++ dedupFirstAux (x :: seen) xs := by simp
        _ = xs.foldl (fun acc x => if x ∈ acc then acc else acc ++ [x]) (acc ++ [x]) :=
            ih (x :: seen) (acc ++ [x]) hmem

/-- C8: the scoped-expectation extractor returns no duplicates, equals the
keep-first de-duplication of the raw scan (so first-occurrence order is
preserved), and every returned expectation is owned by an objective step
whose scoped URL normalizes to the queried URL (and is a verification
content assertion) or by a pass criterion embedding that URL — never by a
step or criterion tied to a different URL. -/
theorem c8_scoped_extractor (tc : TestCase) (url : String) :
    (extract_scoped_expectations_for_url tc url).Nodup
    ∧ extract_scoped_expectations_for_url tc url
        = keepFirst (scoped_expectations_raw tc url)
    ∧ ∀ e ∈ extract_scoped_expectations_for_url tc url,
        (∃ step ∈ tc.objective_steps,
          scoped_step_url step = some (normalize_for_compare url)
          ∧ is_verify_step step = true
          ∧ looks_like_page_content_assertion step = true
          ∧ truthyExtract step = some e)
        ∨ (∃ crit ∈ tc.pass_criteria,
          parse_url_in_text crit = some (normalize_for_compare url)
          ∧ truthyExtract crit = some e) := by
  refine ⟨dedupFirstAux_nodup _ _, ?_, ?_⟩
  · have h := dedupFirstAux_foldl (scoped_expectations_raw tc url) [] [] (by simp)
    simpa [extract_scoped_expectations_for_url, keepFirst] using h
  · intro e he
    have hraw : e ∈ scoped_expectations_raw tc url :=
      (mem_dedupFirstAux _ _ _ he).1
    simp only [scoped_expectations_raw] at hraw
    rcases List.mem_append.mp hraw with hs | hc
    · left
      obtain ⟨step, hstep, hf⟩ := List.mem_filterMap.mp hs
      refine ⟨step, hstep, ?_⟩
      cases hsu : scoped_step_url step with
      | none =>
        rw [hsu] at hf
        simp at hf
      | some su =>
        rw [hsu] at hf
        dsimp only at hf
        by_cases hcond : (su == normalize_for_compare url && is_verify_step step
            && looks_like_page_content_assertion step) = true
        · rw [if_pos hcond] at hf
          have h3 := (Bool.and_eq_true _ _).mp hcond
          have h1 := (Bool.and_eq_true _ _).mp h3.1
          have hsu' : su = normalize_for_compare url := by
            have := h1.1
            simpa using this
          refine ⟨?_, h1.2, h3.2, hf⟩
          rw [hsu']
        · rw [if_neg hcond] at hf
          cases hf
    · right
      obtain ⟨crit, hcrit, hf⟩ := List.mem_filterMap.mp hc
      refine ⟨crit, hcrit, ?_⟩
      cases hcu : parse_url_in_text crit with
      | none =>
        rw [hcu] at hf
        simp at hf
      | some cu =>
        rw [hcu] at hf
        dsimp only at hf
        by_cases hcond : (cu == normalize_for_compare url) = true
        · rw [if_pos hcond] at hf
          have hcu' : cu = normalize_for_compare url := by
            simpa using hcond
          refine ⟨?_, hf⟩
          rw [hcu']
        · rw [if_neg hcond] at hf
          cases hf

/-- C8 witness: the extractor and the ownership disjunction at the C3
fixture task and its final URL. -/
theorem c8_witness :
    (∃ step ∈ tcC3.objective_steps,
      scoped_step_url step = some (normalize_for_compare "https://x/done")
      ∧ is_verify_step step = true
      ∧ looks_like_page_content_assertion step = true
      ∧ truthyExtract step = some "Welcome")
    ∨ (∃ crit ∈ tcC3.pass_criteria,
      parse_url_in_text crit = some (normalize_for_compare "https://x/done")
      ∧ truthyExtract crit = some "Welcome") :=
  (c8_scoped_extractor tcC3 "https://x/done").2.2 "Welcome" (by decide)

/-! ### C7 -/

/-- Visit recording never touches the success flag. -/
@[simp] theorem record_visit_success (st : RunState) (u : String) :
    (record_visit st u).success = st.success := rfl

/-- Visit recording never touches the failure reason. -/
@[simp] theorem record_visit_fail_reason (st : RunState) (u : String) :
    (record_visit st u).fail_reason = st.fail_reason := rfl

/-- Visit recording never touches the trace list. -/
@[simp] theorem record_visit_actions (st : RunState) (u : String) :
    (record_visit st u).actions = st.actions := rfl

/-- Coordinate recording never touches the success flag. -/
@[simp] theorem record_action_coord_success (st : RunState) (a : String)
    (c : PyNum × PyNum) : (record_action_coord st a c).success = st.success := by
  simp only [record_action_coord]
  split <;> split <;> rfl

/-- Coordinate recording never touches the failure reason. -/
@[simp] theorem record_action_coord_fail_reason (st : RunState) (a : String)
    (c : PyNum × PyNum) : (record_action_coord st a c).fail_reason = st.fail_reason := by
  simp only [record_action_coord]
  split <;> split <;> rfl

/-- Coordinate recording never touches the trace list. -/
@[simp] theorem record_action_coord_actions (st : RunState) (a : String)
    (c : PyNum × PyNum) : (record_action_coord st a c).actions = st.actions := by
  simp only [record_action_coord]
  split <;> split <;> rfl

/-- The streak update never touches the success flag. -/
@[simp] theorem update_streak_success (st : RunState) (s : String) :
    (update_streak st s).success = st.success := by
  simp only [update_streak]
  split <;> rfl

/-- The streak update never touches the failure reason. -/
@[simp] theorem update_streak_fail_reason (st : RunState) (s : String) :
    (update_streak st s).fail_reason = st.fail_reason := by
  simp only [update_streak]
  split <;> rfl

/-- The streak update never touches the trace list. -/
@[simp] theorem update_streak_actions (st : RunState) (s : String) :
    (update_streak st s).actions = st.actions := by
  simp only [update_streak]
  split <;> rfl

/-- The verified-expectation update never touches the success flag. -/
@[simp] theorem update_verified_success (tc : TestCase) (u t : String) (st : RunState) :
    (update_verified tc u t st).success = st.success := by
  unfold update_verified
  generalize extract_scoped_expectations_for_url tc u = l
  induction l generalizing st with
  | nil => rfl
  | cons e es ih =>
    rw [List.foldl_cons, ih]
    split
    · split <;> rfl
    · rfl

/-- The verified-expectation update never touches the failure reason. -/
@[simp] theorem update_verified_fail_reason (tc : TestCase) (u t : String) (st : RunState) :
    (update_verified tc u t st).fail_reason = st.fail_reason := by
  unfold update_verified
  generalize extract_scoped_expectations_for_url tc u = l
  induction l generalizing st with
  | nil => rfl
  | cons e es ih =>
    rw [List.foldl_cons, ih]
    split
    · split <;> rfl
    · rfl

/-- The verified-expectation update never touches the trace list. -/
@[simp] theorem update_verified_actions (tc : TestCase) (u t : String) (st : RunState) :
    (update_verified tc u t st).actions = st.actions := by
  unfold update_verified
  generalize extract_scoped_expectations_for_url tc u = l
  induction l generalizing st with
  | nil => rfl
  | cons e es ih =>
    rw [List.foldl_cons, ih]
    split
    · split <;> rfl
    · rfl

/-- None of the execution branches touches the success flag, the failure
reason or the trace list. -/
theorem exec_branch_preserves (f : RunState → RoundInput → ActionArgs →
      String × RunState × Option String)
    (hf : f = exec_visit_url ∨ f = exec_left_click ∨ f = exec_type
      ∨ f = exec_mouse_move ∨ f = exec_scroll ∨ f = exec_key
      ∨ f = exec_history_back ∨ f = exec_web_search ∨ f = exec_wait)
    (st : RunState) (inp : RoundInput) (args : ActionArgs) :
    (f st inp args).2.1.success = st.success
    ∧ (f st inp args).2.1.fail_reason = st.fail_reason
    ∧ (f st inp args).2.1.actions = st.actions := by
  rcases hf with rfl | rfl | rfl | rfl | rfl | rfl | rfl | rfl | rfl
  · simp only [exec_visit_url]
    repeat' split
    all_goals exact ⟨by simp, by simp, by simp⟩
  · simp only [exec_left_click]
    repeat' split
    all_goals exact ⟨by simp, by simp, by simp⟩
  · simp only [exec_type]
    repeat' split
    all_goals exact ⟨by simp, by simp, by simp⟩
  · simp only [exec_mouse_move]
    repeat' split
    all_goals exact ⟨by simp, by simp, by simp⟩
  · simp only [exec_scroll]
    repeat' split
    all_goals exact ⟨by simp, by simp, by simp⟩
  · simp only [exec_key]
    repeat' split
    all_goals exact ⟨by simp, by simp, by simp⟩
  · simp only [exec_history_back]
    repeat' split
    all_goals exact ⟨by simp, by simp, by simp⟩
  · simp only [exec_web_search]
    repeat' split
    all_goals exact ⟨by simp, by simp, by simp⟩
  · simp only [exec_wait]
    repeat' split
    all_goals exact ⟨by simp, by simp, by simp⟩

set_option maxHeartbeats 1000000 in
/-- Action execution never touches the success flag, failure reason or
trace list. -/
theorem execute_action_preserves (st : RunState) (inp : RoundInput)
    (args : ActionArgs) :
    (execute_action st inp args).2.1.success = st.success
    ∧ (execute_action st inp args).2.1.fail_reason = st.fail_reason
    ∧ (execute_action st inp args).2.1.actions = st.actions := by
  simp only [execute_action]
  repeat' split
  all_goals
    first
    | exact exec_branch_preserves _ (by tauto) st inp args
    | exact ⟨rfl, rfl, rfl⟩

/-- Action execution never touches the success flag. -/
@[simp] theorem execute_action_success (st : RunState) (inp : RoundInput)
    (args : ActionArgs) : (execute_action st inp args).2.1.success = st.success :=
  (execute_action_preserves st inp args).1

/-- Action execution never touches the failure reason. -/
@[simp] theorem execute_action_fail_reason (st : RunState) (inp : RoundInput)
    (args : ActionArgs) : (execute_action st inp args).2.1.fail_reason = st.fail_reason :=
  (execute_action_preserves st inp args).2.1

/-- Action execution never touches the trace list. -/
@[simp] theorem execute_action_actions (st : RunState) (inp : RoundInput)
    (args : ActionArgs) : (execute_action st inp args).2.1.actions = st.actions :=
  (execute_action_preserves st inp args).2.2

/-- Pre-action bookkeeping never touches the success flag. -/
@[simp] theorem pre_action_bookkeeping_success (tc : TestCase) (response : String)
    (st : RunState) : (pre_action_bookkeeping tc response st).success = st.success := by
  simp only [pre_action_bookkeeping]
  repeat' split
  all_goals rfl

/-- Pre-action bookkeeping never touches the failure reason. -/
@[simp] theorem pre_action_bookkeeping_fail_reason (tc : TestCase) (response : String)
    (st : RunState) : (pre_action_bookkeeping tc response st).fail_reason = st.fail_reason := by
  simp only [pre_action_bookkeeping]
  repeat' split
  all_goals rfl

/-- Pre-action bookkeeping never touches the trace list. -/
@[simp] theorem pre_action_bookkeeping_actions (tc : TestCase) (response : String)
    (st : RunState) : (pre_action_bookkeeping tc response st).actions = st.actions := by
  simp only [pre_action_bookkeeping]
  repeat' split
  all_goals rfl

/-- The observation block never touches the success flag. -/
@[simp] theorem observe_and_update_success (tc : TestCase) (n : Nat) (inp : RoundInput)
    (response : String) (args : ActionArgs) (result : String) (clicked : Option String)
    (burl : String) (st : RunState) :
    (observe_and_update tc n inp response args result clicked burl st).success
      = st.success := by
  simp only [observe_and_update]
  repeat' split
  all_goals simp

/-- The observation block never touches the failure reason. -/
@[simp] theorem observe_and_update_fail_reason (tc : TestCase) (n : Nat) (inp : RoundInput)
    (response : String) (args : ActionArgs) (result : String) (clicked : Option String)
    (burl : String) (st : RunState) :
    (observe_and_update tc n inp response args result clicked burl st).fail_reason
      = st.fail_reason := by
  simp only [observe_and_update]
  repeat' split
  all_goals simp

/-- The observation block appends exactly one trace. -/
@[simp] theorem observe_and_update_actions_len (tc : TestCase) (n : Nat) (inp : RoundInput)
    (response : String) (args : ActionArgs) (result : String) (clicked : Option String)
    (burl : String) (st : RunState) :
    (observe_and_update tc n inp response args result clicked burl st).actions.length
      = st.actions.length + 1 := by
  simp only [observe_and_update]
  repeat' split
  all_goals simp

/-- A continuing `after_exec_checks` preserves the success flag and failure
reason and appends exactly one trace. -/
theorem after_exec_checks_go (tc : TestCase) (n : Nat) (inp : RoundInput)
    (response : String) (args : ActionArgs) (result : String) (clicked : Option String)
    (burl : String) (st0 st' : RunState)
    (h : after_exec_checks tc n inp response args result clicked burl st0 = .go st') :
    st'.success = st0.success ∧ st'.fail_reason = st0.fail_reason
    ∧ st'.actions.length = st0.actions.length + 1 := by
  simp only [after_exec_checks] at h
  split at h
  · simp at h
  · split at h
    · simp at h
    · split at h
      · simp at h
      · split at h
        · split at h
          · simp at h
          · cases h
            refine ⟨by simp, by simp, by simp⟩
        · cases h
          refine ⟨by simp, by simp, by simp⟩

/-- A continuing `runAfterParse` preserves the success flag and failure
reason and appends exactly one trace. -/
theorem runAfterParse_go (tc : TestCase) (n : Nat) (inp : RoundInput)
    (st : RunState) (response : String) (args : ActionArgs) (st' : RunState)
    (h : runAfterParse tc n inp st response args = .go st') :
    st'.success = st.success ∧ st'.fail_reason = st.fail_reason
    ∧ st'.actions.length = st.actions.length + 1 := by
  simp only [runAfterParse] at h
  split at h
  · simp at h
  · obtain ⟨h1, h2, h3⟩ := after_exec_checks_go _ _ _ _ _ _ _ _ _ _ h
    refine ⟨?_, ?_, ?_⟩
    · rw [h1]
      simp
    · rw [h2]
      simp
    · rw [h3]
      simp

/-- A continuing `runRound` preserves the success flag and failure reason
and appends exactly one trace. -/
theorem runRound_go (tc : TestCase) (i : Nat) (inp : RoundInput)
    (st st' : RunState) (h : runRound tc i inp st = .go st') :
    st'.success = st.success ∧ st'.fail_reason = st.fail_reason
    ∧ st'.actions.length = st.actions.length + 1 := by
  simp only [runRound] at h
  split at h
  · simp at h
  · split at h
    · simp at h
    · split at h
      · simp at h
      · rename_i turn
        split at h
        · rename_i ra hra
          obtain ⟨h1, h2, h3⟩ := runAfterParse_go _ _ _ _ _ _ _ h
          refine ⟨by rw [h1]; simp, by rw [h2]; simp, by rw [h3]; simp⟩
        · split at h
          · simp at h
          · rename_i rturn
            split at h
            · rename_i a ha
              split at h
              · obtain ⟨h1, h2, h3⟩ := runAfterParse_go _ _ _ _ _ _ _ h
                refine ⟨by rw [h1]; simp, by rw [h2]; simp, by rw [h3]; simp⟩
              · simp at h
            · simp at h

/-- When every round continues, the loop preserves success and failure
reason and appends one trace per round. -/
theorem run_loop_all_go (tc : TestCase) (script : Nat → RoundInput) :
    ∀ (fuel i : Nat) (st : RunState), rounds_all_go tc script fuel i st = true →
      (run_loop tc script fuel i st).success = st.success
      ∧ (run_loop tc script fuel i st).fail_reason = st.fail_reason
      ∧ (run_loop tc script fuel i st).actions.length = st.actions.length + fuel := by
  intro fuel
  induction fuel with
  | zero => intro i st _; exact ⟨rfl, rfl, rfl⟩
  | succ f ih =>
    intro i st hall
    simp only [rounds_all_go] at hall
    simp only [run_loop]
    cases hr : runRound tc i (script i) st with
    | stop s =>
      rw [hr] at hall
      simp at hall
    | go st1 =>
      rw [hr] at hall
      dsimp only at hall
      dsimp only
      obtain ⟨g1, g2, g3⟩ := runRound_go _ _ _ _ _ hr
      obtain ⟨l1, l2, l3⟩ := ih (i + 1) st1 hall
      refine ⟨by rw [l1, g1], by rw [l2, g2], by rw [l3, g3]; omega⟩

/-- C7: a run in which no round breaks out of the loop — no auto-verdict,
no loop abort, no terminate action, every model call succeeding and parsing
into an allowed action — ends after exactly the effective round budget with
success false, reason exactly "Max rounds reached.", and exactly that many
`ActionTrace` entries. -/
theorem c7_max_rounds (tc : TestCase) (config_max : Nat) (script : Nat → RoundInput)
    (vw vh : PyNum) (im0 : Option (PyNum × PyNum)) (init_url init_title init_text : String)
    (h : rounds_all_go tc script (eff_max_rounds config_max tc) 0
          (init_state tc vw vh im0 init_url init_title init_text) = true) :
    (run_test_case tc config_max script
        (init_state tc vw vh im0 init_url init_title init_text)).success = false
    ∧ (run_test_case tc config_max script
        (init_state tc vw vh im0 init_url init_title init_text)).reason
        = "Max rounds reached."
    ∧ (run_test_case tc config_max script
        (init_state tc vw vh im0 init_url init_title init_text)).actions.length
        = eff_max_rounds config_max tc := by
  obtain ⟨h1, h2, h3⟩ := run_loop_all_go tc script (eff_max_rounds config_max tc) 0 _ h
  have hs : (init_state tc vw vh im0 init_url init_title init_text).success = false := rfl
  have hf : (init_state tc vw vh im0 init_url init_title init_text).fail_reason
      = "Max rounds reached." := rfl
  have ha : (init_state tc vw vh im0 init_url init_title init_text).actions.length = 0 := rfl
  refine ⟨?_, ?_, ?_⟩
  · simp only [run_test_case]
    rw [h1, hs]
  · simp only [run_test_case]
    rw [h1, hs, h2, hf]
    rfl
  · simp only [run_test_case]
    rw [h3, ha]
    omega

/-- C7 witness: a two-round budget with benign `wait` rounds ends at "Max
rounds reached." with two traces. -/
theorem c7_witness :
    (run_test_case { max_rounds := some 2 } 15
      (fun _ => { model_response := .ok ⟨"", some { action := some "wait" }⟩,
                  url_after_exec := "https://x/a",
                  after_url := "https://x/a" })
      (init_state { max_rounds := some 2 } ⟨100, 1⟩ ⟨100, 1⟩
        (some (⟨100, 1⟩, ⟨100, 1⟩)) "https://x/a" "" "")).success = false
    ∧ (run_test_case { max_rounds := some 2 } 15
      (fun _ => { model_response := .ok ⟨"", some { action := some "wait" }⟩,
                  url_after_exec := "https://x/a",
                  after_url := "https://x/a" })
      (init_state { max_rounds := some 2 } ⟨100, 1⟩ ⟨100, 1⟩
        (some (⟨100, 1⟩, ⟨100, 1⟩)) "https://x/a" "" "")).reason = "Max rounds reached."
    ∧ (run_test_case { max_rounds := some 2 } 15
      (fun _ => { model_response := .ok ⟨"", some { action := some "wait" }⟩,
                  url_after_exec := "https://x/a",
                  after_url := "https://x/a" })
      (init_state { max_rounds := some 2 } ⟨100, 1⟩ ⟨100, 1⟩
        (some (⟨100, 1⟩, ⟨100, 1⟩)) "https://x/a" "" "")).actions.length
      = eff_max_rounds 15 { max_rounds := some 2 } :=
  c7_max_rounds { max_rounds := some 2 } 15
    (fun _ => { model_response := .ok ⟨"", some { action := some "wait" }⟩,
                url_after_exec := "https://x/a",
                after_url := "https://x/a" })
    ⟨100, 1⟩ ⟨100, 1⟩ (some (⟨100, 1⟩, ⟨100, 1⟩)) "https://x/a" "" "" (by decide)
